import Mathlib

set_option maxRecDepth 8000

/-
  Verification of the Ledger & Aggregation Engine of the broker dashboard
  (src/components/BrokerDashboard.tsx).

  The embedding models calendar dates as year/month/day triples of naturals,
  compared lexicographically: this is exactly the comparison the program
  performs on its zero-padded YYYY-MM-DD date strings, and coincides with the
  chronological comparison `new Date(s).getTime()` used by its sort calls.
  JavaScript numbers holding lead counters are modelled as `Int` (the program
  validates them as integers at the input boundary; their sums stay far below
  2^53, where doubles are exact).  The conversion rate is computed the way the
  program computes it: the quotient signed/totalIn is rounded to the nearest
  IEEE-754 binary64 value (round to nearest, ties to even), that double is
  multiplied by 100 and rounded again, and `toFixed(1)` turns the resulting
  double into a string, choosing the integer n of tenths that minimises the
  distance of n/10 to the double's exact value, the larger n at ties.  The
  binary64 rounding is modelled exactly over integer mantissa/exponent pairs
  for the normal range (which covers every value these percentages can take);
  subnormals and overflow to infinity are outside the model.  The bulk-edit
  loop formats each visited day with `toISOString()` on a Date built from the
  local-midnight string, so the written date string is the UTC calendar day of
  local midnight: one day before the visited day in zones east of UTC (offset
  in (0, 24h)), the same day in zones at or west of UTC (offset in (-24h, 0]);
  the model carries the zone's UTC offset in minutes as an explicit parameter.
  The possibly-absent `repiqueLeads` field is an `Option Int`; the optional
  `discardReason` free text is a `String`, with the absent value identified
  with "" (the program only ever reads it through `|| ''` style coalescing).
-/

namespace WRRobert

/-- Calendar date, the model of the program's YYYY-MM-DD date strings. -/
structure Date where
  year : Nat
  month : Nat
  day : Nat
deriving DecidableEq, Repr

/-- Lexicographic (= chronological, = string) order on dates, non-strict. -/
def Date.le (a b : Date) : Prop :=
  a.year < b.year ∨ (a.year = b.year ∧ (a.month < b.month ∨ (a.month = b.month ∧ a.day ≤ b.day)))

/-- Lexicographic (= chronological, = string) order on dates, strict. -/
def Date.lt (a b : Date) : Prop :=
  a.year < b.year ∨ (a.year = b.year ∧ (a.month < b.month ∨ (a.month = b.month ∧ a.day < b.day)))

instance (a b : Date) : Decidable (Date.le a b) := by
  unfold Date.le; exact inferInstance

instance (a b : Date) : Decidable (Date.lt a b) := by
  unfold Date.lt; exact inferInstance

/-- One committed record of a broker's daily activity (type DailyEntry of the
    program).  `repiqueLeads` may be absent in older records. -/
structure DailyEntry where
  date : Date
  newLeads : Int
  discardedLeads : Int
  repiqueLeads : Option Int
  localVisits : Int
  contactingLeads : Int
  inProgressLeads : Int
  scheduledLeads : Int
  negotiationLeads : Int
  creditAnalysisLeads : Int
  approvedLeads : Int
  signedLeads : Int
  discardReason : String
deriving DecidableEq, Repr

/-- The aggregate root (type BrokerProfile of the program). -/
structure BrokerProfile where
  brokerName : String
  initialLeads : Int
  monthlySalesGoal : Option Int
  dailyEntries : List DailyEntry
deriving DecidableEq, Repr

/-- A daily entry annotated with running balances, as produced by the
    `entriesWithCalculatedBalances` memo. -/
structure LedgerEntry extends DailyEntry where
  startOfDayBalance : Int
  endOfDayBalance : Int
deriving DecidableEq, Repr

/-- Insertion step of the chronological sort applied by
    `[...profile.dailyEntries].sort((a, b) => new Date(a.date).getTime() - new Date(b.date).getTime())`. -/
def insertChrono (a : DailyEntry) : List DailyEntry → List DailyEntry
  | [] => [a]
  | b :: l => if Date.le a.date b.date then a :: b :: l else b :: insertChrono a l

/-- The chronological ascending sort of the stored entry collection. -/
def sortByDate (l : List DailyEntry) : List DailyEntry :=
  l.foldr insertChrono []

/-- The fold of `entriesWithCalculatedBalances`: starting from the running
    balance, each entry is annotated with its start- and end-of-day balances,
    with `endOfDayBalance = balance + newLeads + (repiqueLeads || 0)
    - discardedLeads - signedLeads`. -/
def ledgerFold (balance : Int) : List DailyEntry → List LedgerEntry
  | [] => []
  | e :: rest =>
    let endOfDay := balance + e.newLeads + (e.repiqueLeads.getD 0) - e.discardedLeads - e.signedLeads
    { toDailyEntry := e, startOfDayBalance := balance, endOfDayBalance := endOfDay }
      :: ledgerFold endOfDay rest

/-- The Ledger Builder: chronological sort followed by the balance fold
    (the value `entriesWithBalance` of the program, before the presentation
    `reverse()`). -/
def buildLedger (initialLeads : Int) (entries : List DailyEntry) : List LedgerEntry :=
  ledgerFold initialLeads (sortByDate entries)

/-- The `entriesWithCalculatedBalances` memo itself: the built ledger reversed
    for most-recent-first display. -/
def entriesWithCalculatedBalances (profile : BrokerProfile) : List LedgerEntry :=
  (buildLedger profile.initialLeads profile.dailyEntries).reverse

/-- A target month, the model of the YYYY-MM string of the month selector. -/
structure YearMonth where
  year : Nat
  month : Nat
deriving DecidableEq, Repr

/-- The first day of a month: the date the program spells as
    the selected month followed by the string for day 01. -/
def monthStart (ym : YearMonth) : Date := ⟨ym.year, ym.month, 1⟩

/-- Month membership, the model of `entry.date.startsWith(selectedMonth)` on
    zero-padded date strings. -/
def inMonth (ym : YearMonth) (d : Date) : Bool :=
  decide (d.year = ym.year ∧ d.month = ym.month)

/-- The for-loop of `monthlySummary` that accumulates the balance over the
    sorted entries strictly before the month start and stops (break) at the
    first entry on or after it. -/
def initialBalanceLoop (balance : Int) (ym : YearMonth) : List DailyEntry → Int
  | [] => balance
  | e :: rest =>
    if Date.lt e.date (monthStart ym) then
      initialBalanceLoop
        (balance + e.newLeads + (e.repiqueLeads.getD 0) - e.discardedLeads - e.signedLeads)
        ym rest
    else balance

/-- Nearest integer to a/b for b > 0, ties to even (the IEEE-754 significand
    rounding). -/
def intDivRNE (a b : Int) : Int :=
  let q := Int.ediv a b
  let r := Int.emod a b
  if 2 * r < b then q
  else if b < 2 * r then q + 1
  else if Int.emod q 2 = 0 then q else q + 1

/-- Scale a/b (both positive) by powers of two until the quotient lies in
    [2^52, 2^53), then round it to the nearest integer, ties to even: the
    result (m, e) represents the binary64 value m * 2^e nearest to a/b.  The
    fuel covers the whole binary64 normal range. -/
def floatOfRatAux : Nat → Int → Int → Int → Int × Int
  | 0, a, b, e => (intDivRNE a b, e)
  | fuel + 1, a, b, e =>
    if a < 4503599627370496 * b then floatOfRatAux fuel (2 * a) b (e - 1)
    else if 9007199254740992 * b ≤ a then floatOfRatAux fuel a (2 * b) (e + 1)
    else (intDivRNE a b, e)

/-- The IEEE-754 binary64 value nearest to the rational a/b (b > 0), as a
    mantissa/exponent pair; round to nearest, ties to even, sign-symmetric. -/
def floatOfRat (a b : Int) : Int × Int :=
  if a = 0 then (0, 0)
  else if a < 0 then
    let p := floatOfRatAux 2400 (-a) b 0
    (-p.1, p.2)
  else floatOfRatAux 2400 a b 0

/-- Nearest integer to p/q for q > 0, ties towards the larger integer (the
    tie rule of ECMAScript Number.prototype.toFixed). -/
def halfUpDiv (p q : Int) : Int := Int.ediv (2 * p + q) (2 * q)

/-- The integer of tenths `toFixed(1)` selects for the double m * 2^e: the n
    minimising the distance of n/10 to the double's exact value, larger n at
    ties. -/
def toFixed1Int (m e : Int) : Int :=
  if 0 ≤ e then 10 * m * 2 ^ e.toNat
  else halfUpDiv (10 * m) (2 ^ (-e).toNat)

/-- `((s / t) * 100).toFixed(1)` as an integer of tenths, computed with the
    program's double-precision arithmetic: binary64 of s/t, binary64 of that
    times 100 (100 and the integer inputs are exactly representable), then
    the toFixed(1) selection. -/
def conversionTenths (s t : Int) : Int :=
  let d1 := floatOfRat s t
  let d2 := floatOfRat (d1.1 * 100) 1
  toFixed1Int d2.1 (d1.2 + d2.2)

/-- Render an integer of tenths the way `toFixed(1)` prints it: sign, integer
    part, one decimal digit. -/
def renderFixed1 (n : Int) : String :=
  (if n < 0 then "-" else "") ++ toString (n.natAbs / 10) ++ "." ++ toString (n.natAbs % 10)

/-- The record returned by the `monthlySummary` memo. -/
structure MonthlySummary where
  newLeads : Int
  repiqueLeads : Int
  signedLeads : Int
  discardedLeads : Int
  conversionRate : String
  negotiationLeads : Int
  initialLeadsForMonth : Int
  finalLeadsForMonth : Int
deriving DecidableEq, Repr

/-- The `monthlySummary` memo: sort chronologically, accumulate the balance of
    the days before the month, filter the month's entries, sum each counter
    (reduce from 0), and derive the conversion rate and final balance. -/
def monthlySummary (profile : BrokerProfile) (selectedMonth : YearMonth) : MonthlySummary :=
  let chronologicalEntries := sortByDate profile.dailyEntries
  let currentLeadBaseForMonth :=
    initialBalanceLoop profile.initialLeads selectedMonth chronologicalEntries
  let monthEntries := chronologicalEntries.filter (fun e => inMonth selectedMonth e.date)
  let newLeads := monthEntries.foldl (fun sum e => sum + e.newLeads) (0 : Int)
  let repiqueLeads := monthEntries.foldl (fun sum e => sum + (e.repiqueLeads.getD 0)) (0 : Int)
  let signedLeads := monthEntries.foldl (fun sum e => sum + e.signedLeads) (0 : Int)
  let discardedLeads := monthEntries.foldl (fun sum e => sum + e.discardedLeads) (0 : Int)
  let negotiationLeads := monthEntries.foldl (fun sum e => sum + e.negotiationLeads) (0 : Int)
  let totalLeadsIn := newLeads + repiqueLeads
  let conversionRate :=
    if 0 < totalLeadsIn then renderFixed1 (conversionTenths signedLeads totalLeadsIn)
    else "0.0"
  let finalLeadsForMonth := currentLeadBaseForMonth + totalLeadsIn - discardedLeads - signedLeads
  { newLeads := newLeads, repiqueLeads := repiqueLeads, signedLeads := signedLeads,
    discardedLeads := discardedLeads, conversionRate := conversionRate,
    negotiationLeads := negotiationLeads,
    initialLeadsForMonth := currentLeadBaseForMonth,
    finalLeadsForMonth := finalLeadsForMonth }

/-- The fields of the edit form (`dailyData`, the entry shape minus the date).
    Here `repiqueLeads` is a plain integer: the form always materialises it,
    starting from the all-zero `initialState`. -/
structure FormData where
  newLeads : Int
  discardedLeads : Int
  repiqueLeads : Int
  localVisits : Int
  contactingLeads : Int
  inProgressLeads : Int
  scheduledLeads : Int
  negotiationLeads : Int
  creditAnalysisLeads : Int
  approvedLeads : Int
  signedLeads : Int
  discardReason : String
deriving DecidableEq, Repr

/-- The all-zero/empty default form state (`initialState` of the program). -/
def initialState : FormData :=
  { newLeads := 0, discardedLeads := 0, repiqueLeads := 0, localVisits := 0,
    contactingLeads := 0, inProgressLeads := 0, scheduledLeads := 0, negotiationLeads := 0,
    creditAnalysisLeads := 0, approvedLeads := 0, signedLeads := 0, discardReason := "" }

/-- The spread `{ ...initialState, ...formData }` applied to a committed entry
    stripped of its date: every field of the entry overrides the default, the
    possibly-absent `repiqueLeads` falls back to the default 0. -/
def entryFormData (e : DailyEntry) : FormData :=
  { newLeads := e.newLeads, discardedLeads := e.discardedLeads,
    repiqueLeads := e.repiqueLeads.getD 0, localVisits := e.localVisits,
    contactingLeads := e.contactingLeads, inProgressLeads := e.inProgressLeads,
    scheduledLeads := e.scheduledLeads, negotiationLeads := e.negotiationLeads,
    creditAnalysisLeads := e.creditAnalysisLeads, approvedLeads := e.approvedLeads,
    signedLeads := e.signedLeads, discardReason := e.discardReason }

/-- The load effect (Check Draft, then Saved Entry, then Default).  The first
    argument models `localStorage.getItem` followed by `JSON.parse` of the
    draft slot for the selected (broker, date): `none` when no draft is
    stored, `some none` when a draft is stored but fails to parse (the catch
    branch), `some (some d)` when it parses to form data `d`.  The result is
    the `dailyData` form state together with the `isDraft` flag. -/
def loadEditState (storedDraft : Option (Option FormData)) (existingEntry : Option DailyEntry) :
    FormData × Bool :=
  match storedDraft with
  | some (some parsedDraft) => (parsedDraft, true)
  | some none =>
    match existingEntry with
    | some e => (entryFormData e, false)
    | none => (initialState, false)
  | none =>
    match existingEntry with
    | some e => (entryFormData e, false)
    | none => (initialState, false)

/-- The load effect followed by the Save-Draft-on-Change effect, which
    unconditionally writes the current form state to the draft slot and sets
    `isDraft` to true.  Result: (draft slot contents, form state, isDraft). -/
def loadThenAutosave (storedDraft : Option (Option FormData))
    (existingEntry : Option DailyEntry) : Option FormData × FormData × Bool :=
  let loaded := loadEditState storedDraft existingEntry
  (some loaded.1, loaded.1, true)

/-- The eleven counter fields of the entry form. -/
inductive CounterField
  | newLeads | discardedLeads | repiqueLeads | localVisits | contactingLeads
  | inProgressLeads | scheduledLeads | negotiationLeads | creditAnalysisLeads
  | approvedLeads | signedLeads
deriving DecidableEq, Repr

/-- All eleven counter fields. -/
def allCounterFields : List CounterField :=
  [.newLeads, .discardedLeads, .repiqueLeads, .localVisits, .contactingLeads,
   .inProgressLeads, .scheduledLeads, .negotiationLeads, .creditAnalysisLeads,
   .approvedLeads, .signedLeads]

/-- Update of the per-field error map. -/
def setFieldError (errors : CounterField → Bool) (f : CounterField) (b : Bool) :
    CounterField → Bool :=
  fun g => if g = f then b else errors g

/-- `Object.values(errors).some(isError => isError)`. -/
def hasActiveErrors (errors : CounterField → Bool) : Bool :=
  allCounterFields.any errors

/-- Store a value into one counter field of the form state. -/
def setCounter (d : FormData) (f : CounterField) (v : Int) : FormData :=
  match f with
  | .newLeads => { d with newLeads := v }
  | .discardedLeads => { d with discardedLeads := v }
  | .repiqueLeads => { d with repiqueLeads := v }
  | .localVisits => { d with localVisits := v }
  | .contactingLeads => { d with contactingLeads := v }
  | .inProgressLeads => { d with inProgressLeads := v }
  | .scheduledLeads => { d with scheduledLeads := v }
  | .negotiationLeads => { d with negotiationLeads := v }
  | .creditAnalysisLeads => { d with creditAnalysisLeads := v }
  | .approvedLeads => { d with approvedLeads := v }
  | .signedLeads => { d with signedLeads := v }

/-- `handleNumberChange`: a keystroke in counter field `f` with parsed value
    `value` (`none` models the empty input).  A negative value flags the field
    in error, anything else clears the flag; the stored value is clamped with
    `Math.max(0, value)` and the empty input stores 0. -/
def handleNumberChange (f : CounterField) (value : Option Int)
    (errors : CounterField → Bool) (d : FormData) : (CounterField → Bool) × FormData :=
  let errors' :=
    match value with
    | some v => setFieldError errors f (decide (v < 0))
    | none => setFieldError errors f false
  let d' := setCounter d f (match value with | none => 0 | some v => max 0 v)
  (errors', d')

/-- The validation errors the two commit paths can signal (each alert-and-return
    branch of `handleSubmit` and `handleBulkSave`). -/
inductive ValidationError
  | missingDate | futureDate | activeFieldErrors
  | missingStartDate | missingEndDate | futureStartDate | futureEndDate
  | startAfterEnd | activeBulkErrors
deriving DecidableEq, Repr

/-- The entry committed by `handleSubmit`: the form data with the selected
    date attached, and the discard reason blanked when `discardedLeads == 0`. -/
def cleanedEntry (d : FormData) (date : Date) : DailyEntry :=
  { date := date, newLeads := d.newLeads, discardedLeads := d.discardedLeads,
    repiqueLeads := some d.repiqueLeads, localVisits := d.localVisits,
    contactingLeads := d.contactingLeads, inProgressLeads := d.inProgressLeads,
    scheduledLeads := d.scheduledLeads, negotiationLeads := d.negotiationLeads,
    creditAnalysisLeads := d.creditAnalysisLeads, approvedLeads := d.approvedLeads,
    signedLeads := d.signedLeads,
    discardReason := if d.discardedLeads = 0 then "" else d.discardReason }

/-- `handleSubmit`: the single-day commit.  The guards run in program order
    (missing date, future date, active field errors) before anything is
    written; an `Except.ok` value is the one entry passed to `onSaveEntry`
    (after which the draft slot is cleared), an `Except.error` performs no
    store write at all. -/
def handleSubmit (today : Date) (selectedDate : Option Date)
    (errors : CounterField → Bool) (dailyData : FormData) :
    Except ValidationError DailyEntry :=
  match selectedDate with
  | none => .error .missingDate
  | some date =>
    if Date.lt today date then .error .futureDate
    else if hasActiveErrors errors then .error .activeFieldErrors
    else .ok (cleanedEntry dailyData date)

/-- The sparse field overrides of a bulk edit (`bulkDailyData`): `some v`
    models a field for which the form holds an actual number (the program's
    check is `typeof x === 'number'`), `none` models an empty or untouched
    field. -/
structure BulkOverrides where
  newLeads : Option Int
  discardedLeads : Option Int
  repiqueLeads : Option Int
  localVisits : Option Int
  contactingLeads : Option Int
  inProgressLeads : Option Int
  scheduledLeads : Option Int
  negotiationLeads : Option Int
  creditAnalysisLeads : Option Int
  approvedLeads : Option Int
  signedLeads : Option Int
deriving DecidableEq, Repr

/-- Days in a calendar month (proleptic Gregorian, as implemented by the
    JavaScript Date object the bulk loop iterates with). -/
def daysInMonth (y m : Nat) : Nat :=
  if m = 2 then (if (y % 4 = 0 ∧ y % 100 ≠ 0) ∨ y % 400 = 0 then 29 else 28)
  else if m = 4 ∨ m = 6 ∨ m = 9 ∨ m = 11 then 30 else 31

/-- The calendar successor of a date
    (`currentDate.setDate(currentDate.getDate() + 1)`). -/
def Date.next (c : Date) : Date :=
  if c.day < daysInMonth c.year c.month then ⟨c.year, c.month, c.day + 1⟩
  else if c.month < 12 then ⟨c.year, c.month + 1, 1⟩
  else ⟨c.year + 1, 1, 1⟩

/-- A well-formed calendar date, as produced by the date inputs of the form. -/
def Date.Valid (d : Date) : Prop :=
  1 ≤ d.month ∧ d.month ≤ 12 ∧ 1 ≤ d.day ∧ d.day ≤ daysInMonth d.year d.month

instance (d : Date) : Decidable d.Valid := by
  unfold Date.Valid; exact inferInstance

/-- A measure that the calendar successor strictly increases on valid dates;
    it bounds the number of iterations of the bulk while-loop. -/
def Date.rank (d : Date) : Nat := 1000 * d.year + 50 * d.month + d.day

/-- Fuelled unfolding of the bulk while-loop over the dates of the range. -/
def dateRangeAux : Nat → Date → Date → List Date
  | 0, _, _ => []
  | fuel + 1, c, e => if Date.le c e then c :: dateRangeAux fuel (Date.next c) e else []

/-- The dates visited by `while (currentDate <= endDate)`, one calendar day at
    a time from the start date. -/
def dateRange (s e : Date) : List Date :=
  dateRangeAux (e.rank + 1 - s.rank) s e

/-- `profile.dailyEntries.find(e => e.date === dateString)`. -/
def findEntry (entries : List DailyEntry) (d : Date) : Option DailyEntry :=
  entries.find? (fun e => decide (e.date = d))

/-- The entry the bulk loop writes for one date: each counter takes the
    override when the bulk form holds a number for it (an explicit 0
    included), otherwise the existing entry's value, otherwise 0; the discard
    reason is carried over from the existing entry (empty for a new date). -/
def bulkEntryFor (entries : List DailyEntry) (bulkDailyData : BulkOverrides) (d : Date) :
    DailyEntry :=
  let existingEntry := findEntry entries d
  { date := d
  , newLeads :=
      match bulkDailyData.newLeads with
      | some v => v
      | none => match existingEntry with | some ex => ex.newLeads | none => 0
  , discardedLeads :=
      match bulkDailyData.discardedLeads with
      | some v => v
      | none => match existingEntry with | some ex => ex.discardedLeads | none => 0
  , repiqueLeads := some
      (match bulkDailyData.repiqueLeads with
      | some v => v
      | none => match existingEntry with | some ex => ex.repiqueLeads.getD 0 | none => 0)
  , localVisits :=
      match bulkDailyData.localVisits with
      | some v => v
      | none => match existingEntry with | some ex => ex.localVisits | none => 0
  , contactingLeads :=
      match bulkDailyData.contactingLeads with
      | some v => v
      | none => match existingEntry with | some ex => ex.contactingLeads | none => 0
  , inProgressLeads :=
      match bulkDailyData.inProgressLeads with
      | some v => v
      | none => match existingEntry with | some ex => ex.inProgressLeads | none => 0
  , scheduledLeads :=
      match bulkDailyData.scheduledLeads with
      | some v => v
      | none => match existingEntry with | some ex => ex.scheduledLeads | none => 0
  , negotiationLeads :=
      match bulkDailyData.negotiationLeads with
      | some v => v
      | none => match existingEntry with | some ex => ex.negotiationLeads | none => 0
  , creditAnalysisLeads :=
      match bulkDailyData.creditAnalysisLeads with
      | some v => v
      | none => match existingEntry with | some ex => ex.creditAnalysisLeads | none => 0
  , approvedLeads :=
      match bulkDailyData.approvedLeads with
      | some v => v
      | none => match existingEntry with | some ex => ex.approvedLeads | none => 0
  , signedLeads :=
      match bulkDailyData.signedLeads with
      | some v => v
      | none => match existingEntry with | some ex => ex.signedLeads | none => 0
  , discardReason :=
      match existingEntry with | some ex => ex.discardReason | none => "" }

/-- The calendar predecessor of a date (proleptic Gregorian). -/
def Date.prev (c : Date) : Date :=
  if 1 < c.day then ⟨c.year, c.month, c.day - 1⟩
  else if 1 < c.month then ⟨c.year, c.month - 1, daysInMonth c.year (c.month - 1)⟩
  else ⟨c.year - 1, 12, 31⟩

/-- The date string the loop writes for a visited day:
    `currentDate.toISOString().split('T')[0]` on the Date holding local
    midnight of that day.  `tzOffsetMinutes` is the environment's UTC offset
    in minutes (positive east of UTC, e.g. +120 for UTC+2, -180 for Brasilia);
    for offsets in (0, 24h) local midnight falls on the previous UTC calendar
    day, for offsets in (-24h, 0] on the same day. -/
def toISODate (tzOffsetMinutes : Int) (d : Date) : Date :=
  if 0 < tzOffsetMinutes then Date.prev d else d

/-- The body of `handleBulkSave` after its guards: the sequence of entries
    passed to `onSaveEntry`, one per day visited by the loop over the
    inclusive range, each keyed and dated by the `toISOString` date string of
    that day's local midnight.  Every iteration reads the same
    `profile.dailyEntries` snapshot, exactly as the loop does. -/
def handleBulkSave (entries : List DailyEntry) (bulkDailyData : BulkOverrides)
    (bulkStartDate bulkEndDate : Date) (tzOffsetMinutes : Int) : List DailyEntry :=
  (dateRange bulkStartDate bulkEndDate).map
    (fun d => bulkEntryFor entries bulkDailyData (toISODate tzOffsetMinutes d))

/-- `handleBulkSave` with its validation guards, in program order: missing
    start, missing end, future start, future end, start after end, active
    bulk field errors.  An error performs no store write. -/
def handleBulkSaveChecked (today : Date) (bulkStartDate bulkEndDate : Option Date)
    (bulkErrors : CounterField → Bool) (entries : List DailyEntry)
    (bulkDailyData : BulkOverrides) (tzOffsetMinutes : Int) :
    Except ValidationError (List DailyEntry) :=
  match bulkStartDate with
  | none => .error .missingStartDate
  | some s =>
    match bulkEndDate with
    | none => .error .missingEndDate
    | some e =>
      if Date.lt today s then .error .futureStartDate
      else if Date.lt today e then .error .futureEndDate
      else if Date.lt e s then .error .startAfterEnd
      else if hasActiveErrors bulkErrors then .error .activeBulkErrors
      else .ok (handleBulkSave entries bulkDailyData s e tzOffsetMinutes)

/-- Replace the possibly-absent repique count by its defaulted value. -/
def normalizeRepique (e : DailyEntry) : DailyEntry :=
  { e with repiqueLeads := some (e.repiqueLeads.getD 0) }

/-- The date/balance view of a ledger, the part the claim about absent
    repique counts compares. -/
def ledgerView (l : List LedgerEntry) : List (Date × Int × Int) :=
  l.map (fun x => (x.date, x.startOfDayBalance, x.endOfDayBalance))

/-- The daily net change of the lead balance: the ledger formula applied to
    one entry. -/
def entryDelta (e : DailyEntry) : Int :=
  e.newLeads + (e.repiqueLeads.getD 0) - e.discardedLeads - e.signedLeads

/-- The ledger formula folded over a list of entries from a starting balance
    (the fold the specification describes). -/
def foldBalance (init : Int) (l : List DailyEntry) : Int :=
  l.foldl
    (fun balance e =>
      balance + e.newLeads + (e.repiqueLeads.getD 0) - e.discardedLeads - e.signedLeads)
    init

/-- Concrete two-day profile of the specification scenarios, used as a
    witness input. -/
def specEntry1 : DailyEntry :=
  { date := ⟨2024, 5, 1⟩, newLeads := 5, discardedLeads := 1, repiqueLeads := none,
    localVisits := 0, contactingLeads := 0, inProgressLeads := 0, scheduledLeads := 0,
    negotiationLeads := 0, creditAnalysisLeads := 0, approvedLeads := 0,
    signedLeads := 2, discardReason := "" }

/-- Second concrete entry of the specification scenario. -/
def specEntry2 : DailyEntry :=
  { date := ⟨2024, 5, 2⟩, newLeads := 0, discardedLeads := 0, repiqueLeads := none,
    localVisits := 0, contactingLeads := 0, inProgressLeads := 0, scheduledLeads := 0,
    negotiationLeads := 0, creditAnalysisLeads := 0, approvedLeads := 0,
    signedLeads := 1, discardReason := "" }

/-- The specification's scenario profile: initial balance 10, two May entries. -/
def specProfile : BrokerProfile := ⟨"w", 10, none, [specEntry1, specEntry2]⟩

/-- A single entry with 80 new leads and 23 signed contracts, an input on
    which double-precision rounding and exact decimal rounding disagree. -/
def rateEntry : DailyEntry :=
  { date := ⟨2024, 5, 1⟩, newLeads := 80, discardedLeads := 0, repiqueLeads := some 0,
    localVisits := 0, contactingLeads := 0, inProgressLeads := 0, scheduledLeads := 0,
    negotiationLeads := 0, creditAnalysisLeads := 0, approvedLeads := 0,
    signedLeads := 23, discardReason := "" }

/-- Profile holding only `rateEntry`. -/
def rateProfile : BrokerProfile := ⟨"c", 0, none, [rateEntry]⟩

/-- An override set with no field specified. -/
def noOverrides : BulkOverrides :=
  { newLeads := none, discardedLeads := none, repiqueLeads := none, localVisits := none,
    contactingLeads := none, inProgressLeads := none, scheduledLeads := none,
    negotiationLeads := none, creditAnalysisLeads := none, approvedLeads := none,
    signedLeads := none }

/-- An override set that only zeroes discardedLeads. -/
def zeroDiscardOverride : BulkOverrides :=
  { noOverrides with discardedLeads := some 0 }

/-- An entry with discarded leads and a recorded discard reason. -/
def reasonEntry : DailyEntry :=
  { date := ⟨2024, 5, 1⟩, newLeads := 1, discardedLeads := 3, repiqueLeads := some 0,
    localVisits := 0, contactingLeads := 0, inProgressLeads := 0, scheduledLeads := 0,
    negotiationLeads := 0, creditAnalysisLeads := 0, approvedLeads := 0,
    signedLeads := 0, discardReason := "cliente desistiu" }

theorem Date.le_refl (a : Date) : Date.le a a := by
  unfold Date.le; omega

theorem Date.le_trans {a b c : Date} (h1 : Date.le a b) (h2 : Date.le b c) : Date.le a c := by
  unfold Date.le at *; omega

theorem Date.le_of_not_le {a b : Date} (h : ¬ Date.le a b) : Date.le b a := by
  unfold Date.le at *; omega

theorem Date.le_of_lt {a b : Date} (h : Date.lt a b) : Date.le a b := by
  unfold Date.le Date.lt at *; omega

theorem Date.lt_of_lt_of_le {a b c : Date} (h1 : Date.lt a b) (h2 : Date.le b c) :
    Date.lt a c := by
  unfold Date.le Date.lt at *; omega

theorem Date.lt_of_le_of_lt {a b c : Date} (h1 : Date.le a b) (h2 : Date.lt b c) :
    Date.lt a c := by
  unfold Date.le Date.lt at *; omega

theorem Date.not_lt_self (a : Date) : ¬ Date.lt a a := by
  unfold Date.lt; omega

theorem Date.ne_of_lt {a b : Date} (h : Date.lt a b) : a ≠ b := by
  intro heq
  exact Date.not_lt_self b (heq ▸ h)

theorem Date.lt_of_le_of_ne {a b : Date} (h1 : Date.le a b) (h2 : a ≠ b) : Date.lt a b := by
  obtain ⟨ay, am, ad⟩ := a
  obtain ⟨by', bm, bd⟩ := b
  simp only [ne_eq, Date.mk.injEq] at h2
  unfold Date.le at h1
  unfold Date.lt
  dsimp only at *
  omega

theorem insertChrono_perm (a : DailyEntry) (l : List DailyEntry) :
    List.Perm (insertChrono a l) (a :: l) := by
  induction l with
  | nil => exact List.Perm.refl _
  | cons b l ih =>
    unfold insertChrono
    by_cases h : Date.le a.date b.date
    · rw [if_pos h]
    · rw [if_neg h]
      exact ((ih.cons b).trans (List.Perm.swap a b l))

theorem sortByDate_perm (l : List DailyEntry) : List.Perm (sortByDate l) l := by
  induction l with
  | nil => exact List.Perm.refl _
  | cons a l ih =>
    have : sortByDate (a :: l) = insertChrono a (sortByDate l) := rfl
    rw [this]
    exact (insertChrono_perm a (sortByDate l)).trans (ih.cons a)

theorem mem_insertChrono {x a : DailyEntry} {l : List DailyEntry}
    (h : x ∈ insertChrono a l) : x = a ∨ x ∈ l := by
  have := (insertChrono_perm a l).mem_iff.mp h
  simpa using this

theorem pairwise_insertChrono (a : DailyEntry) {l : List DailyEntry}
    (h : List.Pairwise (fun x y => Date.le x.date y.date) l) :
    List.Pairwise (fun x y => Date.le x.date y.date) (insertChrono a l) := by
  induction l with
  | nil => simp [insertChrono]
  | cons b l ih =>
    rcases List.pairwise_cons.mp h with ⟨hb, hl⟩
    unfold insertChrono
    by_cases hab : Date.le a.date b.date
    · rw [if_pos hab]
      refine List.pairwise_cons.mpr ⟨?_, h⟩
      intro x hx
      rcases List.mem_cons.mp hx with rfl | hx
      · exact hab
      · exact Date.le_trans hab (hb x hx)
    · rw [if_neg hab]
      refine List.pairwise_cons.mpr ⟨?_, ih hl⟩
      intro x hx
      rcases mem_insertChrono hx with rfl | hx
      · exact Date.le_of_not_le hab
      · exact hb x hx

theorem sortByDate_sorted (l : List DailyEntry) :
    List.Pairwise (fun x y => Date.le x.date y.date) (sortByDate l) := by
  induction l with
  | nil => simp [sortByDate]
  | cons a l ih => exact pairwise_insertChrono a ih

theorem ledgerFold_map_date (i : Int) (l : List DailyEntry) :
    (ledgerFold i l).map (fun x => x.date) = l.map (fun e => e.date) := by
  induction l generalizing i with
  | nil => rfl
  | cons e l ih => simp [ledgerFold, ih]

theorem ledgerFold_head_start (i : Int) (l : List DailyEntry) :
    ∀ x, (ledgerFold i l).head? = some x → x.startOfDayBalance = i := by
  cases l with
  | nil => intro x hx; simp [ledgerFold] at hx
  | cons e l =>
    intro x hx
    simp only [ledgerFold, List.head?_cons, Option.some.injEq] at hx
    subst hx
    rfl

theorem ledgerFold_chain (i : Int) (l : List DailyEntry) :
    List.Chain' (fun a b => b.startOfDayBalance = a.endOfDayBalance) (ledgerFold i l) := by
  induction l generalizing i with
  | nil => simp [ledgerFold]
  | cons e l ih =>
    rw [ledgerFold]
    refine List.chain'_cons'.mpr ⟨?_, ih _⟩
    intro y hy
    exact ledgerFold_head_start _ _ y hy

theorem ledgerFold_end_formula (i : Int) (l : List DailyEntry) :
    ∀ x ∈ ledgerFold i l,
      x.endOfDayBalance
        = x.startOfDayBalance + x.newLeads + (x.repiqueLeads.getD 0)
            - x.discardedLeads - x.signedLeads := by
  induction l generalizing i with
  | nil => intro x hx; simp [ledgerFold] at hx
  | cons e l ih =>
    intro x hx
    simp only [ledgerFold, List.mem_cons] at hx
    rcases hx with rfl | hx
    · rfl
    · exact ih _ x hx

/-- C1.  For every initialLeads value and every set of daily entries, the
    ledger produced by the Ledger Builder is sorted ascending by date, its
    first entry has startOfDayBalance equal to initialLeads, every adjacent
    pair satisfies startOfDayBalance of the later equal to endOfDayBalance of
    the earlier, and each entry's endOfDayBalance equals its
    startOfDayBalance + newLeads + repiqueLeads (defaulted to 0)
    - discardedLeads - signedLeads. -/
theorem ledger_builder_invariants (initialLeads : Int) (entries : List DailyEntry) :
    List.Pairwise (fun a b => Date.le a.date b.date) (buildLedger initialLeads entries)
    ∧ (∀ x, (buildLedger initialLeads entries).head? = some x →
        x.startOfDayBalance = initialLeads)
    ∧ List.Chain' (fun a b => b.startOfDayBalance = a.endOfDayBalance)
        (buildLedger initialLeads entries)
    ∧ ∀ x ∈ buildLedger initialLeads entries,
        x.endOfDayBalance
          = x.startOfDayBalance + x.newLeads + (x.repiqueLeads.getD 0)
              - x.discardedLeads - x.signedLeads := by
  refine ⟨?_, ledgerFold_head_start _ _, ledgerFold_chain _ _, ledgerFold_end_formula _ _⟩
  have hsorted := sortByDate_sorted entries
  have hmap := ledgerFold_map_date initialLeads (sortByDate entries)
  have h1 : List.Pairwise (fun x y : Date => Date.le x y)
      ((sortByDate entries).map (fun e => e.date)) :=
    (List.pairwise_map).mpr hsorted
  rw [← hmap] at h1
  exact (List.pairwise_map).mp h1

/-- C1 witness: the invariants instantiated at the two-day scenario of the
    specification (initial balance 10, entries for 2024-05-01 and 2024-05-02). -/
theorem ledger_builder_invariants_witness :
    List.Pairwise (fun a b => Date.le a.date b.date)
      (buildLedger 10
        [{ date := ⟨2024, 5, 1⟩, newLeads := 5, discardedLeads := 1, repiqueLeads := none,
           localVisits := 0, contactingLeads := 0, inProgressLeads := 0, scheduledLeads := 0,
           negotiationLeads := 0, creditAnalysisLeads := 0, approvedLeads := 0,
           signedLeads := 2, discardReason := "" },
         { date := ⟨2024, 5, 2⟩, newLeads := 0, discardedLeads := 0, repiqueLeads := none,
           localVisits := 0, contactingLeads := 0, inProgressLeads := 0, scheduledLeads := 0,
           negotiationLeads := 0, creditAnalysisLeads := 0, approvedLeads := 0,
           signedLeads := 1, discardReason := "" }])
    ∧ (∀ x, (buildLedger 10
        [{ date := ⟨2024, 5, 1⟩, newLeads := 5, discardedLeads := 1, repiqueLeads := none,
           localVisits := 0, contactingLeads := 0, inProgressLeads := 0, scheduledLeads := 0,
           negotiationLeads := 0, creditAnalysisLeads := 0, approvedLeads := 0,
           signedLeads := 2, discardReason := "" },
         { date := ⟨2024, 5, 2⟩, newLeads := 0, discardedLeads := 0, repiqueLeads := none,
           localVisits := 0, contactingLeads := 0, inProgressLeads := 0, scheduledLeads := 0,
           negotiationLeads := 0, creditAnalysisLeads := 0, approvedLeads := 0,
           signedLeads := 1, discardReason := "" }]).head? = some x →
        x.startOfDayBalance = 10)
    ∧ List.Chain' (fun a b => b.startOfDayBalance = a.endOfDayBalance)
        (buildLedger 10
        [{ date := ⟨2024, 5, 1⟩, newLeads := 5, discardedLeads := 1, repiqueLeads := none,
           localVisits := 0, contactingLeads := 0, inProgressLeads := 0, scheduledLeads := 0,
           negotiationLeads := 0, creditAnalysisLeads := 0, approvedLeads := 0,
           signedLeads := 2, discardReason := "" },
         { date := ⟨2024, 5, 2⟩, newLeads := 0, discardedLeads := 0, repiqueLeads := none,
           localVisits := 0, contactingLeads := 0, inProgressLeads := 0, scheduledLeads := 0,
           negotiationLeads := 0, creditAnalysisLeads := 0, approvedLeads := 0,
           signedLeads := 1, discardReason := "" }])
    ∧ ∀ x ∈ buildLedger 10
        [{ date := ⟨2024, 5, 1⟩, newLeads := 5, discardedLeads := 1, repiqueLeads := none,
           localVisits := 0, contactingLeads := 0, inProgressLeads := 0, scheduledLeads := 0,
           negotiationLeads := 0, creditAnalysisLeads := 0, approvedLeads := 0,
           signedLeads := 2, discardReason := "" },
         { date := ⟨2024, 5, 2⟩, newLeads := 0, discardedLeads := 0, repiqueLeads := none,
           localVisits := 0, contactingLeads := 0, inProgressLeads := 0, scheduledLeads := 0,
           negotiationLeads := 0, creditAnalysisLeads := 0, approvedLeads := 0,
           signedLeads := 1, discardReason := "" }],
        x.endOfDayBalance
          = x.startOfDayBalance + x.newLeads + (x.repiqueLeads.getD 0)
              - x.discardedLeads - x.signedLeads :=
  ledger_builder_invariants 10 _

theorem normalizeRepique_date (e : DailyEntry) : (normalizeRepique e).date = e.date := rfl

theorem normalizeRepique_getD (e : DailyEntry) :
    (normalizeRepique e).repiqueLeads.getD 0 = e.repiqueLeads.getD 0 := rfl

theorem insertChrono_normalize (a : DailyEntry) (l : List DailyEntry) :
    insertChrono (normalizeRepique a) (l.map normalizeRepique)
      = (insertChrono a l).map normalizeRepique := by
  induction l with
  | nil => rfl
  | cons b l ih =>
    simp only [List.map_cons, insertChrono, normalizeRepique_date]
    by_cases h : Date.le a.date b.date
    · rw [if_pos h, if_pos h, List.map_cons, List.map_cons]
    · rw [if_neg h, if_neg h, List.map_cons, ih]

theorem sortByDate_normalize (l : List DailyEntry) :
    sortByDate (l.map normalizeRepique) = (sortByDate l).map normalizeRepique := by
  induction l with
  | nil => rfl
  | cons a l ih =>
    have h1 : sortByDate (a :: l) = insertChrono a (sortByDate l) := rfl
    have h2 : sortByDate ((a :: l).map normalizeRepique)
        = insertChrono (normalizeRepique a) (sortByDate (l.map normalizeRepique)) := rfl
    rw [h1, h2, ih, insertChrono_normalize]

theorem ledgerFold_normalize (i : Int) (l : List DailyEntry) :
    ledgerView (ledgerFold i (l.map normalizeRepique)) = ledgerView (ledgerFold i l) := by
  induction l generalizing i with
  | nil => rfl
  | cons e l ih =>
    simp only [List.map_cons, ledgerFold, ledgerView, List.map]
    exact congrArg₂ List.cons rfl (ih _)

theorem initialBalanceLoop_normalize (ym : YearMonth) (l : List DailyEntry) (b : Int) :
    initialBalanceLoop b ym (l.map normalizeRepique) = initialBalanceLoop b ym l := by
  induction l generalizing b with
  | nil => rfl
  | cons e l ih =>
    simp only [List.map_cons, initialBalanceLoop, normalizeRepique_date, normalizeRepique_getD]
    by_cases h : Date.lt e.date (monthStart ym)
    · rw [if_pos h, if_pos h]
      exact ih _
    · rw [if_neg h, if_neg h]

theorem filter_inMonth_normalize (ym : YearMonth) (l : List DailyEntry) :
    (l.map normalizeRepique).filter (fun e => inMonth ym e.date)
      = (l.filter (fun e => inMonth ym e.date)).map normalizeRepique := by
  induction l with
  | nil => rfl
  | cons e l ih =>
    cases h : inMonth ym e.date with
    | false =>
      simp only [List.map_cons, List.filter_cons, normalizeRepique_date, h]
      simpa using ih
    | true =>
      simp only [List.map_cons, List.filter_cons, normalizeRepique_date, h]
      simpa using ih

theorem foldl_add_normalize (f : DailyEntry → Int)
    (hf : ∀ e, f (normalizeRepique e) = f e) (l : List DailyEntry) (i : Int) :
    (l.map normalizeRepique).foldl (fun sum e => sum + f e) i
      = l.foldl (fun sum e => sum + f e) i := by
  induction l generalizing i with
  | nil => rfl
  | cons e l ih =>
    simp only [List.map_cons, List.foldl_cons, hf]
    exact ih _

theorem monthlySummary_normalize (name : String) (i : Int) (goal : Option Int)
    (l : List DailyEntry) (ym : YearMonth) :
    monthlySummary ⟨name, i, goal, l.map normalizeRepique⟩ ym
      = monthlySummary ⟨name, i, goal, l⟩ ym := by
  unfold monthlySummary
  simp only [sortByDate_normalize, initialBalanceLoop_normalize, filter_inMonth_normalize]
  rw [foldl_add_normalize (fun e => e.newLeads) (fun e => rfl),
    foldl_add_normalize (fun e => e.repiqueLeads.getD 0) normalizeRepique_getD,
    foldl_add_normalize (fun e => e.signedLeads) (fun e => rfl),
    foldl_add_normalize (fun e => e.discardedLeads) (fun e => rfl),
    foldl_add_normalize (fun e => e.negotiationLeads) (fun e => rfl)]

/-- C2.  An entry whose repiqueLeads field is absent contributes 0 wherever
    repique counts are read: the ledger (dates and start/end balances) and the
    monthly summary computed from an entry set containing it coincide with
    those computed from the same set with the entry's repiqueLeads explicitly
    set to 0. -/
theorem repique_absent_defaults_zero (initialLeads : Int) (pre post : List DailyEntry)
    (e : DailyEntry) (h : e.repiqueLeads = none) (name : String) (goal : Option Int)
    (ym : YearMonth) :
    ledgerView (buildLedger initialLeads (pre ++ e :: post))
      = ledgerView (buildLedger initialLeads
          (pre ++ { e with repiqueLeads := some 0 } :: post))
    ∧ monthlySummary ⟨name, initialLeads, goal, pre ++ e :: post⟩ ym
      = monthlySummary ⟨name, initialLeads, goal,
          pre ++ { e with repiqueLeads := some 0 } :: post⟩ ym := by
  have hmap : (pre ++ e :: post).map normalizeRepique
      = (pre ++ { e with repiqueLeads := some 0 } :: post).map normalizeRepique := by
    simp only [List.map_append, List.map_cons]
    have : normalizeRepique e = normalizeRepique { e with repiqueLeads := some 0 } := by
      unfold normalizeRepique
      rw [h]
      rfl
    rw [this]
  constructor
  · unfold buildLedger
    rw [← ledgerFold_normalize initialLeads (sortByDate (pre ++ e :: post)),
      ← ledgerFold_normalize initialLeads
        (sortByDate (pre ++ { e with repiqueLeads := some 0 } :: post)),
      ← sortByDate_normalize, ← sortByDate_normalize, hmap]
  · rw [← monthlySummary_normalize name initialLeads goal (pre ++ e :: post) ym,
      ← monthlySummary_normalize name initialLeads goal
        (pre ++ { e with repiqueLeads := some 0 } :: post) ym, hmap]

/-- C2 witness: a concrete profile whose middle entry lacks repiqueLeads. -/
theorem repique_absent_defaults_zero_witness :
    ledgerView (buildLedger 7
      ([{ date := ⟨2024, 4, 30⟩, newLeads := 2, discardedLeads := 0, repiqueLeads := some 3,
          localVisits := 0, contactingLeads := 0, inProgressLeads := 0, scheduledLeads := 0,
          negotiationLeads := 0, creditAnalysisLeads := 0, approvedLeads := 0,
          signedLeads := 1, discardReason := "" }]
        ++ { date := ⟨2024, 5, 1⟩, newLeads := 5, discardedLeads := 1, repiqueLeads := none,
             localVisits := 0, contactingLeads := 0, inProgressLeads := 0, scheduledLeads := 0,
             negotiationLeads := 0, creditAnalysisLeads := 0, approvedLeads := 0,
             signedLeads := 2, discardReason := "" } :: []))
      = ledgerView (buildLedger 7
      ([{ date := ⟨2024, 4, 30⟩, newLeads := 2, discardedLeads := 0, repiqueLeads := some 3,
          localVisits := 0, contactingLeads := 0, inProgressLeads := 0, scheduledLeads := 0,
          negotiationLeads := 0, creditAnalysisLeads := 0, approvedLeads := 0,
          signedLeads := 1, discardReason := "" }]
        ++ { date := ⟨2024, 5, 1⟩, newLeads := 5, discardedLeads := 1, repiqueLeads := some 0,
             localVisits := 0, contactingLeads := 0, inProgressLeads := 0, scheduledLeads := 0,
             negotiationLeads := 0, creditAnalysisLeads := 0, approvedLeads := 0,
             signedLeads := 2, discardReason := "" } :: []))
    ∧ monthlySummary ⟨"w", 7, none,
        [{ date := ⟨2024, 4, 30⟩, newLeads := 2, discardedLeads := 0, repiqueLeads := some 3,
           localVisits := 0, contactingLeads := 0, inProgressLeads := 0, scheduledLeads := 0,
           negotiationLeads := 0, creditAnalysisLeads := 0, approvedLeads := 0,
           signedLeads := 1, discardReason := "" }]
        ++ { date := ⟨2024, 5, 1⟩, newLeads := 5, discardedLeads := 1, repiqueLeads := none,
             localVisits := 0, contactingLeads := 0, inProgressLeads := 0, scheduledLeads := 0,
             negotiationLeads := 0, creditAnalysisLeads := 0, approvedLeads := 0,
             signedLeads := 2, discardReason := "" } :: []⟩ ⟨2024, 5⟩
      = monthlySummary ⟨"w", 7, none,
        [{ date := ⟨2024, 4, 30⟩, newLeads := 2, discardedLeads := 0, repiqueLeads := some 3,
           localVisits := 0, contactingLeads := 0, inProgressLeads := 0, scheduledLeads := 0,
           negotiationLeads := 0, creditAnalysisLeads := 0, approvedLeads := 0,
           signedLeads := 1, discardReason := "" }]
        ++ { date := ⟨2024, 5, 1⟩, newLeads := 5, discardedLeads := 1, repiqueLeads := some 0,
             localVisits := 0, contactingLeads := 0, inProgressLeads := 0, scheduledLeads := 0,
             negotiationLeads := 0, creditAnalysisLeads := 0, approvedLeads := 0,
             signedLeads := 2, discardReason := "" } :: []⟩ ⟨2024, 5⟩ :=
  repique_absent_defaults_zero 7 _ _ _ (by decide) "w" none ⟨2024, 5⟩

theorem foldBalance_eq_sum (l : List DailyEntry) (init : Int) :
    foldBalance init l = init + (l.map entryDelta).sum := by
  induction l generalizing init with
  | nil => simp [foldBalance]
  | cons e l ih =>
    have h1 : foldBalance init (e :: l)
        = foldBalance
            (init + e.newLeads + (e.repiqueLeads.getD 0) - e.discardedLeads - e.signedLeads)
            l := rfl
    rw [h1, ih]
    simp only [List.map_cons, List.sum_cons]
    unfold entryDelta
    omega

theorem foldl_add_eq_sum (f : DailyEntry → Int) (l : List DailyEntry) (i : Int) :
    l.foldl (fun sum e => sum + f e) i = i + (l.map f).sum := by
  induction l generalizing i with
  | nil => simp
  | cons e l ih =>
    simp only [List.foldl_cons, List.map_cons, List.sum_cons, ih]
    omega

theorem initialBalanceLoop_eq_takeWhile (ym : YearMonth) (l : List DailyEntry) (b : Int) :
    initialBalanceLoop b ym l
      = b + ((l.takeWhile (fun e => decide (Date.lt e.date (monthStart ym)))).map
          entryDelta).sum := by
  induction l generalizing b with
  | nil => simp [initialBalanceLoop]
  | cons e l ih =>
    have hstep : initialBalanceLoop b ym (e :: l)
        = if Date.lt e.date (monthStart ym) then
            initialBalanceLoop
              (b + e.newLeads + (e.repiqueLeads.getD 0) - e.discardedLeads - e.signedLeads)
              ym l
          else b := rfl
    rw [hstep]
    by_cases h : Date.lt e.date (monthStart ym)
    · have hd : decide (Date.lt e.date (monthStart ym)) = true := by
        simp only [decide_eq_true_eq]; exact h
      rw [if_pos h, ih, List.takeWhile_cons, hd]
      simp only [if_true, List.map_cons, List.sum_cons]
      unfold entryDelta
      omega
    · have hd : decide (Date.lt e.date (monthStart ym)) = false := by
        simp only [decide_eq_false_iff_not]; exact h
      rw [if_neg h, List.takeWhile_cons, hd]
      simp

theorem takeWhile_eq_filter_sorted (p : DailyEntry → Bool)
    (hp : ∀ a b : DailyEntry, Date.le a.date b.date → p b = true → p a = true)
    (l : List DailyEntry) (hl : List.Pairwise (fun x y => Date.le x.date y.date) l) :
    l.takeWhile p = l.filter p := by
  induction l with
  | nil => rfl
  | cons a l ih =>
    rcases List.pairwise_cons.mp hl with ⟨ha, hl'⟩
    cases hpa : p a with
    | true =>
      rw [List.takeWhile_cons, List.filter_cons]
      simp only [hpa, if_true]
      rw [ih hl']
    | false =>
      rw [List.takeWhile_cons, List.filter_cons]
      simp only [hpa]
      have : l.filter p = [] := by
        rw [List.filter_eq_nil_iff]
        intro b hb hpb
        exact Bool.false_ne_true (hpa ▸ hp a b (ha b hb) hpb)
      simp [this]

theorem sum_filter_sorted (f : DailyEntry → Int) (p : DailyEntry → Bool)
    (l : List DailyEntry) :
    (((sortByDate l).filter p).map f).sum = ((l.filter p).map f).sum :=
  (((sortByDate_perm l).filter p).map f).sum_eq

theorem monthlySummary_newLeads (profile : BrokerProfile) (ym : YearMonth) :
    (monthlySummary profile ym).newLeads
      = ((profile.dailyEntries.filter (fun e => inMonth ym e.date)).map
          (fun e => e.newLeads)).sum := by
  unfold monthlySummary
  dsimp only
  rw [foldl_add_eq_sum, sum_filter_sorted]
  simp

theorem monthlySummary_repiqueLeads (profile : BrokerProfile) (ym : YearMonth) :
    (monthlySummary profile ym).repiqueLeads
      = ((profile.dailyEntries.filter (fun e => inMonth ym e.date)).map
          (fun e => e.repiqueLeads.getD 0)).sum := by
  unfold monthlySummary
  dsimp only
  rw [foldl_add_eq_sum, sum_filter_sorted]
  simp

theorem monthlySummary_signedLeads (profile : BrokerProfile) (ym : YearMonth) :
    (monthlySummary profile ym).signedLeads
      = ((profile.dailyEntries.filter (fun e => inMonth ym e.date)).map
          (fun e => e.signedLeads)).sum := by
  unfold monthlySummary
  dsimp only
  rw [foldl_add_eq_sum, sum_filter_sorted]
  simp

theorem monthlySummary_discardedLeads (profile : BrokerProfile) (ym : YearMonth) :
    (monthlySummary profile ym).discardedLeads
      = ((profile.dailyEntries.filter (fun e => inMonth ym e.date)).map
          (fun e => e.discardedLeads)).sum := by
  unfold monthlySummary
  dsimp only
  rw [foldl_add_eq_sum, sum_filter_sorted]
  simp

theorem monthlySummary_negotiationLeads (profile : BrokerProfile) (ym : YearMonth) :
    (monthlySummary profile ym).negotiationLeads
      = ((profile.dailyEntries.filter (fun e => inMonth ym e.date)).map
          (fun e => e.negotiationLeads)).sum := by
  unfold monthlySummary
  dsimp only
  rw [foldl_add_eq_sum, sum_filter_sorted]
  simp

theorem monthlySummary_initial (profile : BrokerProfile) (ym : YearMonth) :
    (monthlySummary profile ym).initialLeadsForMonth
      = foldBalance profile.initialLeads
          (profile.dailyEntries.filter (fun e => decide (Date.lt e.date (monthStart ym)))) := by
  unfold monthlySummary
  dsimp only
  rw [initialBalanceLoop_eq_takeWhile, foldBalance_eq_sum,
    takeWhile_eq_filter_sorted _ ?mono _ (sortByDate_sorted profile.dailyEntries)]
  case mono =>
    intro a b hab hb
    simp only [decide_eq_true_eq] at hb ⊢
    exact Date.lt_of_le_of_lt hab hb
  rw [sum_filter_sorted]

theorem monthlySummary_final (profile : BrokerProfile) (ym : YearMonth) :
    (monthlySummary profile ym).finalLeadsForMonth
      = (monthlySummary profile ym).initialLeadsForMonth
          + ((monthlySummary profile ym).newLeads + (monthlySummary profile ym).repiqueLeads)
          - (monthlySummary profile ym).discardedLeads
          - (monthlySummary profile ym).signedLeads := rfl

/-- C3.  initialLeadsForMonth is the ledger fold, from the profile's
    initialLeads, over exactly the entries dated before the first day of the
    target month; finalLeadsForMonth is initialLeadsForMonth plus the month's
    lead inflow minus its discarded and signed counts; and a month with no
    entries has all sums 0 and finalLeadsForMonth equal to
    initialLeadsForMonth. -/
theorem monthly_summary_balances (profile : BrokerProfile) (ym : YearMonth) :
    (monthlySummary profile ym).initialLeadsForMonth
      = foldBalance profile.initialLeads
          (profile.dailyEntries.filter (fun e => decide (Date.lt e.date (monthStart ym))))
    ∧ (monthlySummary profile ym).finalLeadsForMonth
      = (monthlySummary profile ym).initialLeadsForMonth
          + (((profile.dailyEntries.filter (fun e => inMonth ym e.date)).map
                (fun e => e.newLeads)).sum
             + ((profile.dailyEntries.filter (fun e => inMonth ym e.date)).map
                (fun e => e.repiqueLeads.getD 0)).sum)
          - ((profile.dailyEntries.filter (fun e => inMonth ym e.date)).map
              (fun e => e.discardedLeads)).sum
          - ((profile.dailyEntries.filter (fun e => inMonth ym e.date)).map
              (fun e => e.signedLeads)).sum
    ∧ (profile.dailyEntries.filter (fun e => inMonth ym e.date) = [] →
        (monthlySummary profile ym).newLeads = 0
        ∧ (monthlySummary profile ym).repiqueLeads = 0
        ∧ (monthlySummary profile ym).signedLeads = 0
        ∧ (monthlySummary profile ym).discardedLeads = 0
        ∧ (monthlySummary profile ym).negotiationLeads = 0
        ∧ (monthlySummary profile ym).finalLeadsForMonth
            = (monthlySummary profile ym).initialLeadsForMonth) := by
  refine ⟨monthlySummary_initial profile ym, ?_, ?_⟩
  · rw [monthlySummary_final, monthlySummary_newLeads, monthlySummary_repiqueLeads,
      monthlySummary_discardedLeads, monthlySummary_signedLeads]
  · intro hempty
    rw [monthlySummary_final, monthlySummary_newLeads, monthlySummary_repiqueLeads,
      monthlySummary_discardedLeads, monthlySummary_signedLeads,
      monthlySummary_negotiationLeads, hempty]
    simp

/-- C3 witness: the month-boundary scenario of the specification, plus the
    empty-month guarantee exercised on a month with no entries. -/
theorem monthly_summary_balances_witness :
    ((monthlySummary ⟨"w", 10, none,
        [{ date := ⟨2024, 5, 1⟩, newLeads := 5, discardedLeads := 1, repiqueLeads := none,
           localVisits := 0, contactingLeads := 0, inProgressLeads := 0, scheduledLeads := 0,
           negotiationLeads := 0, creditAnalysisLeads := 0, approvedLeads := 0,
           signedLeads := 2, discardReason := "" },
         { date := ⟨2024, 5, 2⟩, newLeads := 0, discardedLeads := 0, repiqueLeads := none,
           localVisits := 0, contactingLeads := 0, inProgressLeads := 0, scheduledLeads := 0,
           negotiationLeads := 0, creditAnalysisLeads := 0, approvedLeads := 0,
           signedLeads := 1, discardReason := "" }]⟩ ⟨2024, 6⟩).newLeads = 0
      ∧ (monthlySummary ⟨"w", 10, none,
        [{ date := ⟨2024, 5, 1⟩, newLeads := 5, discardedLeads := 1, repiqueLeads := none,
           localVisits := 0, contactingLeads := 0, inProgressLeads := 0, scheduledLeads := 0,
           negotiationLeads := 0, creditAnalysisLeads := 0, approvedLeads := 0,
           signedLeads := 2, discardReason := "" },
         { date := ⟨2024, 5, 2⟩, newLeads := 0, discardedLeads := 0, repiqueLeads := none,
           localVisits := 0, contactingLeads := 0, inProgressLeads := 0, scheduledLeads := 0,
           negotiationLeads := 0, creditAnalysisLeads := 0, approvedLeads := 0,
           signedLeads := 1, discardReason := "" }]⟩ ⟨2024, 6⟩).repiqueLeads = 0
      ∧ (monthlySummary ⟨"w", 10, none,
        [{ date := ⟨2024, 5, 1⟩, newLeads := 5, discardedLeads := 1, repiqueLeads := none,
           localVisits := 0, contactingLeads := 0, inProgressLeads := 0, scheduledLeads := 0,
           negotiationLeads := 0, creditAnalysisLeads := 0, approvedLeads := 0,
           signedLeads := 2, discardReason := "" },
         { date := ⟨2024, 5, 2⟩, newLeads := 0, discardedLeads := 0, repiqueLeads := none,
           localVisits := 0, contactingLeads := 0, inProgressLeads := 0, scheduledLeads := 0,
           negotiationLeads := 0, creditAnalysisLeads := 0, approvedLeads := 0,
           signedLeads := 1, discardReason := "" }]⟩ ⟨2024, 6⟩).signedLeads = 0
      ∧ (monthlySummary ⟨"w", 10, none,
        [{ date := ⟨2024, 5, 1⟩, newLeads := 5, discardedLeads := 1, repiqueLeads := none,
           localVisits := 0, contactingLeads := 0, inProgressLeads := 0, scheduledLeads := 0,
           negotiationLeads := 0, creditAnalysisLeads := 0, approvedLeads := 0,
           signedLeads := 2, discardReason := "" },
         { date := ⟨2024, 5, 2⟩, newLeads := 0, discardedLeads := 0, repiqueLeads := none,
           localVisits := 0, contactingLeads := 0, inProgressLeads := 0, scheduledLeads := 0,
           negotiationLeads := 0, creditAnalysisLeads := 0, approvedLeads := 0,
           signedLeads := 1, discardReason := "" }]⟩ ⟨2024, 6⟩).discardedLeads = 0
      ∧ (monthlySummary ⟨"w", 10, none,
        [{ date := ⟨2024, 5, 1⟩, newLeads := 5, discardedLeads := 1, repiqueLeads := none,
           localVisits := 0, contactingLeads := 0, inProgressLeads := 0, scheduledLeads := 0,
           negotiationLeads := 0, creditAnalysisLeads := 0, approvedLeads := 0,
           signedLeads := 2, discardReason := "" },
         { date := ⟨2024, 5, 2⟩, newLeads := 0, discardedLeads := 0, repiqueLeads := none,
           localVisits := 0, contactingLeads := 0, inProgressLeads := 0, scheduledLeads := 0,
           negotiationLeads := 0, creditAnalysisLeads := 0, approvedLeads := 0,
           signedLeads := 1, discardReason := "" }]⟩ ⟨2024, 6⟩).negotiationLeads = 0
      ∧ (monthlySummary ⟨"w", 10, none,
        [{ date := ⟨2024, 5, 1⟩, newLeads := 5, discardedLeads := 1, repiqueLeads := none,
           localVisits := 0, contactingLeads := 0, inProgressLeads := 0, scheduledLeads := 0,
           negotiationLeads := 0, creditAnalysisLeads := 0, approvedLeads := 0,
           signedLeads := 2, discardReason := "" },
         { date := ⟨2024, 5, 2⟩, newLeads := 0, discardedLeads := 0, repiqueLeads := none,
           localVisits := 0, contactingLeads := 0, inProgressLeads := 0, scheduledLeads := 0,
           negotiationLeads := 0, creditAnalysisLeads := 0, approvedLeads := 0,
           signedLeads := 1, discardReason := "" }]⟩ ⟨2024, 6⟩).finalLeadsForMonth
        = (monthlySummary ⟨"w", 10, none,
        [{ date := ⟨2024, 5, 1⟩, newLeads := 5, discardedLeads := 1, repiqueLeads := none,
           localVisits := 0, contactingLeads := 0, inProgressLeads := 0, scheduledLeads := 0,
           negotiationLeads := 0, creditAnalysisLeads := 0, approvedLeads := 0,
           signedLeads := 2, discardReason := "" },
         { date := ⟨2024, 5, 2⟩, newLeads := 0, discardedLeads := 0, repiqueLeads := none,
           localVisits := 0, contactingLeads := 0, inProgressLeads := 0, scheduledLeads := 0,
           negotiationLeads := 0, creditAnalysisLeads := 0, approvedLeads := 0,
           signedLeads := 1, discardReason := "" }]⟩ ⟨2024, 6⟩).initialLeadsForMonth) :=
  (monthly_summary_balances _ ⟨2024, 6⟩).2.2 (by decide)

theorem monthlySummary_conversionRate (profile : BrokerProfile) (ym : YearMonth) :
    (monthlySummary profile ym).conversionRate
      = if 0 < (monthlySummary profile ym).newLeads + (monthlySummary profile ym).repiqueLeads
        then renderFixed1 (conversionTenths (monthlySummary profile ym).signedLeads
          ((monthlySummary profile ym).newLeads + (monthlySummary profile ym).repiqueLeads))
        else "0.0" := rfl

/-- C4 counterexample: with 80 new leads and 23 signed contracts in the
    month, the program computes the double-precision value of (23/80)*100,
    which is 28.749999999999996, and toFixed(1) renders "28.7"; rounding the
    exact value 28.75 to one decimal place gives "28.8", so the claim as
    stated fails at this input. -/
theorem conversion_rate_cex :
    ¬ ((monthlySummary rateProfile ⟨2024, 5⟩).conversionRate
        = renderFixed1 (halfUpDiv
            (1000 * ((rateProfile.dailyEntries.filter
                (fun e => inMonth ⟨2024, 5⟩ e.date)).map (fun e => e.signedLeads)).sum)
            (((rateProfile.dailyEntries.filter (fun e => inMonth ⟨2024, 5⟩ e.date)).map
                (fun e => e.newLeads)).sum
              + ((rateProfile.dailyEntries.filter (fun e => inMonth ⟨2024, 5⟩ e.date)).map
                (fun e => e.repiqueLeads.getD 0)).sum)))
    ∧ (monthlySummary rateProfile ⟨2024, 5⟩).conversionRate = "28.7" := by
  constructor
  · decide
  · decide

/-- C4 (amended).  The monthly conversion rate is the string toFixed(1)
    produces for the IEEE-754 double-precision value of the month's signed
    count divided by its total lead inflow (new plus repique) times 100,
    whenever the inflow is positive — which at ties of the underlying double
    can differ by one tenth from exact one-decimal rounding — and it is the
    string for 0 when the inflow is 0. -/
theorem conversion_rate_formula (profile : BrokerProfile) (ym : YearMonth) :
    (0 < ((profile.dailyEntries.filter (fun e => inMonth ym e.date)).map
            (fun e => e.newLeads)).sum
        + ((profile.dailyEntries.filter (fun e => inMonth ym e.date)).map
            (fun e => e.repiqueLeads.getD 0)).sum →
      (monthlySummary profile ym).conversionRate
        = renderFixed1 (conversionTenths
            ((profile.dailyEntries.filter (fun e => inMonth ym e.date)).map
              (fun e => e.signedLeads)).sum
            (((profile.dailyEntries.filter (fun e => inMonth ym e.date)).map
                (fun e => e.newLeads)).sum
              + ((profile.dailyEntries.filter (fun e => inMonth ym e.date)).map
                (fun e => e.repiqueLeads.getD 0)).sum)))
    ∧ (((profile.dailyEntries.filter (fun e => inMonth ym e.date)).map
            (fun e => e.newLeads)).sum
        + ((profile.dailyEntries.filter (fun e => inMonth ym e.date)).map
            (fun e => e.repiqueLeads.getD 0)).sum = 0 →
      (monthlySummary profile ym).conversionRate = "0.0") := by
  constructor
  · intro h
    rw [monthlySummary_conversionRate, monthlySummary_newLeads, monthlySummary_repiqueLeads,
      monthlySummary_signedLeads, if_pos h]
  · intro h
    rw [monthlySummary_conversionRate, monthlySummary_newLeads, monthlySummary_repiqueLeads, h]
    rw [if_neg (lt_irrefl 0)]

/-- C4 witness: the month-boundary scenario of the specification (5 leads in,
    3 signed), with the positive-inflow hypothesis discharged by evaluation. -/
theorem conversion_rate_formula_witness :
    (monthlySummary specProfile ⟨2024, 5⟩).conversionRate
      = renderFixed1 (conversionTenths
          ((specProfile.dailyEntries.filter (fun e => inMonth ⟨2024, 5⟩ e.date)).map
            (fun e => e.signedLeads)).sum
          (((specProfile.dailyEntries.filter (fun e => inMonth ⟨2024, 5⟩ e.date)).map
              (fun e => e.newLeads)).sum
            + ((specProfile.dailyEntries.filter (fun e => inMonth ⟨2024, 5⟩ e.date)).map
              (fun e => e.repiqueLeads.getD 0)).sum)) :=
  (conversion_rate_formula specProfile ⟨2024, 5⟩).1 (by decide)

/-- C5 counterexample: a bulk commit over the single day 2024-05-01 that
    overrides discardedLeads to 0 on an existing entry holding a non-empty
    discard reason writes an entry with discardedLeads 0 whose discardReason
    is still the old text, so the claim fails on the bulk path. -/
theorem bulk_discard_reason_cex :
    ¬ (∀ w ∈ handleBulkSave [reasonEntry] zeroDiscardOverride ⟨2024, 5, 1⟩ ⟨2024, 5, 1⟩ (-180),
        w.discardedLeads = 0 → w.discardReason = "") := by decide

/-- C5 (amended).  On the single-day commit path, whenever the committed
    entry has discardedLeads equal to 0 its discardReason is forced to the
    empty string, regardless of the text held by the form; the bulk path
    instead always carries discardReason over unchanged from the existing
    entry for the date (empty for a new date), even when the committed
    discardedLeads is 0. -/
theorem discard_reason_cleanup (today : Date) (selectedDate : Option Date)
    (errors : CounterField → Bool) (dailyData : FormData)
    (entries : List DailyEntry) (ov : BulkOverrides) (s e : Date) (tz : Int) :
    (∀ entry, handleSubmit today selectedDate errors dailyData = Except.ok entry →
        entry.discardedLeads = 0 → entry.discardReason = "")
    ∧ (∀ w ∈ handleBulkSave entries ov s e tz,
        w.discardReason
          = match findEntry entries w.date with
            | some ex => ex.discardReason
            | none => "") := by
  constructor
  · intro entry hok h0
    cases hsel : selectedDate with
    | none =>
      rw [hsel] at hok
      simp [handleSubmit] at hok
    | some d =>
      rw [hsel] at hok
      by_cases hf : Date.lt today d
      · simp [handleSubmit, hf] at hok
      · by_cases he : hasActiveErrors errors = true
        · simp [handleSubmit, hf, he] at hok
        · simp [handleSubmit, hf, he] at hok
          subst hok
          have h0' : dailyData.discardedLeads = 0 := h0
          simp [cleanedEntry, h0']
  · intro w hw
    unfold handleBulkSave at hw
    rcases List.mem_map.mp hw with ⟨d, hd, rfl⟩
    cases hfind : findEntry entries (toISODate tz d) with
    | none => simp [bulkEntryFor, hfind]
    | some ex => simp [bulkEntryFor, hfind]

/-- C5 witness: a single-day commit of a form with zero discarded leads but a
    stale non-empty reason produces an entry with an empty discardReason. -/
theorem discard_reason_cleanup_witness :
    (cleanedEntry { initialState with discardReason := "stale" } ⟨2024, 5, 10⟩).discardReason
      = "" :=
  (discard_reason_cleanup ⟨2024, 5, 10⟩ (some ⟨2024, 5, 10⟩) (fun _ => false)
      { initialState with discardReason := "stale" } [] noOverrides
      ⟨2024, 5, 1⟩ ⟨2024, 5, 1⟩ (-180)).1
    (cleanedEntry { initialState with discardReason := "stale" } ⟨2024, 5, 10⟩)
    rfl (by decide)

/-- C8.  The read path for editing follows strict precedence: a parsed draft
    is used and marked unsaved (also when a committed entry exists); with no
    draft, a committed entry is used and marked saved; otherwise the all-zero
    default is used and marked saved. -/
theorem load_edit_state_precedence (d : FormData) (e : DailyEntry) (ex : Option DailyEntry) :
    loadEditState (some (some d)) ex = (d, true)
    ∧ loadEditState none (some e) = (entryFormData e, false)
    ∧ loadEditState none none = (initialState, false) :=
  ⟨rfl, rfl, rfl⟩

/-- C9.  A stored draft that fails to parse is discarded locally: the read
    path falls back to the committed entry when one exists, else to the
    default state, marked saved; the total function type carries no failure,
    so the error is never propagated. -/
theorem corrupt_draft_recovery (ex : Option DailyEntry) :
    loadEditState (some none) ex
      = ((match ex with | some e => entryFormData e | none => initialState), false) := by
  cases ex <;> rfl

/-- C10.  The auto-save effect immediately writes the loaded form state to
    the draft slot and marks the state as an unsaved draft, even when nothing
    was edited and the data came from the committed entry or the default, so
    selecting a date with no pre-existing draft still creates a draft cache
    entry for it. -/
theorem autosave_always_writes_draft (storedDraft : Option (Option FormData))
    (ex : Option DailyEntry) :
    (loadThenAutosave storedDraft ex).1 = some (loadEditState storedDraft ex).1
    ∧ (loadThenAutosave storedDraft ex).2.1 = (loadEditState storedDraft ex).1
    ∧ (loadThenAutosave storedDraft ex).2.2 = true :=
  ⟨rfl, rfl, rfl⟩

theorem mem_allCounterFields (f : CounterField) : f ∈ allCounterFields := by
  cases f <;> simp [allCounterFields]

/-- C7.  A negative counter input flags its field and activates the error
    state; a commit attempt whose date is missing or future, or whose error
    state is active, and a bulk attempt whose boundaries are missing or
    future, whose start is after its end, or whose bulk error state is
    active, all return a validation error, and an error result is produced
    before and instead of any store write. -/
theorem validation_no_write (today : Date) (selectedDate : Option Date)
    (errors : CounterField → Bool) (dailyData : FormData)
    (bulkStartDate bulkEndDate : Option Date) (bulkErrors : CounterField → Bool)
    (entries : List DailyEntry) (ov : BulkOverrides) (tz : Int)
    (f : CounterField) (v : Int) :
    (v < 0 →
      (handleNumberChange f (some v) errors dailyData).1 f = true
      ∧ hasActiveErrors (handleNumberChange f (some v) errors dailyData).1 = true)
    ∧ ((selectedDate = none
        ∨ (∃ d, selectedDate = some d ∧ Date.lt today d)
        ∨ hasActiveErrors errors = true) →
      ∃ err, handleSubmit today selectedDate errors dailyData = Except.error err)
    ∧ ((bulkStartDate = none
        ∨ bulkEndDate = none
        ∨ (∃ d, bulkStartDate = some d ∧ Date.lt today d)
        ∨ (∃ d, bulkEndDate = some d ∧ Date.lt today d)
        ∨ (∃ ds de, bulkStartDate = some ds ∧ bulkEndDate = some de ∧ Date.lt de ds)
        ∨ hasActiveErrors bulkErrors = true) →
      ∃ err, handleBulkSaveChecked today bulkStartDate bulkEndDate bulkErrors entries ov tz
        = Except.error err) := by
  refine ⟨?_, ?_, ?_⟩
  · intro hv
    have hflag : (handleNumberChange f (some v) errors dailyData).1 f = true := by
      simp [handleNumberChange, setFieldError, hv]
    refine ⟨hflag, ?_⟩
    rw [hasActiveErrors, List.any_eq_true]
    exact ⟨f, mem_allCounterFields f, hflag⟩
  · intro h
    rcases h with rfl | ⟨d, rfl, hd⟩ | h
    · exact ⟨.missingDate, rfl⟩
    · exact ⟨.futureDate, by simp [handleSubmit, hd]⟩
    · cases selectedDate with
      | none => exact ⟨.missingDate, rfl⟩
      | some d =>
        by_cases hf : Date.lt today d
        · exact ⟨.futureDate, by simp [handleSubmit, hf]⟩
        · exact ⟨.activeFieldErrors, by simp [handleSubmit, hf, h]⟩
  · intro h
    rcases h with rfl | rfl | ⟨d, rfl, hd⟩ | ⟨d, rfl, hd⟩ | ⟨ds, de, rfl, rfl, hlt⟩ | h
    · exact ⟨.missingStartDate, rfl⟩
    · cases bulkStartDate with
      | none => exact ⟨.missingStartDate, rfl⟩
      | some s => exact ⟨.missingEndDate, rfl⟩
    · cases bulkEndDate with
      | none => exact ⟨.missingEndDate, rfl⟩
      | some e => exact ⟨.futureStartDate, by simp [handleBulkSaveChecked, hd]⟩
    · cases bulkStartDate with
      | none => exact ⟨.missingStartDate, rfl⟩
      | some s =>
        by_cases h1 : Date.lt today s
        · exact ⟨.futureStartDate, by simp [handleBulkSaveChecked, h1]⟩
        · exact ⟨.futureEndDate, by simp [handleBulkSaveChecked, h1, hd]⟩
    · by_cases h1 : Date.lt today ds
      · exact ⟨.futureStartDate, by simp [handleBulkSaveChecked, h1]⟩
      · by_cases h2 : Date.lt today de
        · exact ⟨.futureEndDate, by simp [handleBulkSaveChecked, h1, h2]⟩
        · exact ⟨.startAfterEnd, by simp [handleBulkSaveChecked, h1, h2, hlt]⟩
    · cases bulkStartDate with
      | none => exact ⟨.missingStartDate, rfl⟩
      | some s =>
        cases bulkEndDate with
        | none => exact ⟨.missingEndDate, rfl⟩
        | some e =>
          by_cases h1 : Date.lt today s
          · exact ⟨.futureStartDate, by simp [handleBulkSaveChecked, h1]⟩
          · by_cases h2 : Date.lt today e
            · exact ⟨.futureEndDate, by simp [handleBulkSaveChecked, h1, h2]⟩
            · by_cases h3 : Date.lt e s
              · exact ⟨.startAfterEnd, by simp [handleBulkSaveChecked, h1, h2, h3]⟩
              · exact ⟨.activeBulkErrors, by simp [handleBulkSaveChecked, h1, h2, h3, h]⟩

/-- C7 witness: a negative discarded-leads keystroke is flagged, a future
    single-day date is rejected, and a bulk range whose start follows its end
    is rejected. -/
theorem validation_no_write_witness :
    ((handleNumberChange CounterField.discardedLeads (some (-1))
        (fun _ => false) initialState).1 CounterField.discardedLeads = true
      ∧ hasActiveErrors (handleNumberChange CounterField.discardedLeads (some (-1))
          (fun _ => false) initialState).1 = true)
    ∧ (∃ err, handleSubmit ⟨2024, 5, 10⟩ (some ⟨2024, 5, 11⟩) (fun _ => false) initialState
        = Except.error err)
    ∧ (∃ err, handleBulkSaveChecked ⟨2024, 5, 10⟩ (some ⟨2024, 5, 3⟩) (some ⟨2024, 5, 1⟩)
        (fun _ => false) [] noOverrides (-180) = Except.error err) :=
  ⟨(validation_no_write ⟨2024, 5, 10⟩ (some ⟨2024, 5, 11⟩) (fun _ => false) initialState
      (some ⟨2024, 5, 3⟩) (some ⟨2024, 5, 1⟩) (fun _ => false) [] noOverrides (-180)
      CounterField.discardedLeads (-1)).1 (by decide),
   (validation_no_write ⟨2024, 5, 10⟩ (some ⟨2024, 5, 11⟩) (fun _ => false) initialState
      (some ⟨2024, 5, 3⟩) (some ⟨2024, 5, 1⟩) (fun _ => false) [] noOverrides (-180)
      CounterField.discardedLeads (-1)).2.1
      (Or.inr (Or.inl ⟨⟨2024, 5, 11⟩, rfl, by decide⟩)),
   (validation_no_write ⟨2024, 5, 10⟩ (some ⟨2024, 5, 11⟩) (fun _ => false) initialState
      (some ⟨2024, 5, 3⟩) (some ⟨2024, 5, 1⟩) (fun _ => false) [] noOverrides (-180)
      CounterField.discardedLeads (-1)).2.2
      (Or.inr (Or.inr (Or.inr (Or.inr (Or.inl
        ⟨⟨2024, 5, 3⟩, ⟨2024, 5, 1⟩, rfl, rfl, by decide⟩)))))⟩

theorem one_le_daysInMonth (y m : Nat) : 1 ≤ daysInMonth y m := by
  unfold daysInMonth
  split_ifs <;> omega

theorem daysInMonth_le (y m : Nat) : daysInMonth y m ≤ 31 := by
  unfold daysInMonth
  split_ifs <;> omega

theorem valid_next {d : Date} (hd : d.Valid) : d.next.Valid := by
  obtain ⟨y, m, dd⟩ := d
  have hb3 := one_le_daysInMonth y (m + 1)
  have hb4 := one_le_daysInMonth (y + 1) 1
  simp only [Date.Valid] at hd
  simp only [Date.next, Date.Valid]
  split_ifs with h1 h2 <;> (dsimp only; omega)

theorem lt_next {d : Date} (hd : d.Valid) : Date.lt d d.next := by
  obtain ⟨y, m, dd⟩ := d
  simp only [Date.Valid] at hd
  simp only [Date.next, Date.lt]
  split_ifs with h1 h2 <;> (dsimp only; omega)

theorem rank_lt_next {d : Date} (hd : d.Valid) : d.rank < d.next.rank := by
  obtain ⟨y, m, dd⟩ := d
  have hb2 := daysInMonth_le y m
  simp only [Date.Valid] at hd
  simp only [Date.next, Date.rank]
  split_ifs with h1 h2 <;> (dsimp only; omega)

theorem rank_le_of_le {a b : Date} (ha : a.Valid) (hb : b.Valid) (h : Date.le a b) :
    a.rank ≤ b.rank := by
  obtain ⟨ay, am, ad⟩ := a
  obtain ⟨by', bm, bd⟩ := b
  have h1 := daysInMonth_le ay am
  have h2 := daysInMonth_le by' bm
  simp only [Date.Valid] at ha hb
  simp only [Date.le] at h
  simp only [Date.rank]
  omega

theorem next_le_of_lt {c d : Date} (hc : c.Valid) (hd : d.Valid) (h : Date.lt c d) :
    Date.le c.next d := by
  obtain ⟨cy, cm, cd⟩ := c
  obtain ⟨dy, dm, dd⟩ := d
  simp only [Date.Valid] at hc hd
  simp only [Date.lt] at h
  simp only [Date.next]
  rcases h with h | ⟨rfl, h | ⟨rfl, h⟩⟩ <;>
    (simp only [Date.le]
     split_ifs <;> (dsimp only; omega))

theorem mem_dateRangeAux {e : Date} (he : e.Valid) {d : Date} (hd : d.Valid) :
    ∀ (fuel : Nat) (c : Date), c.Valid → e.rank + 1 - c.rank ≤ fuel →
      Date.le c d → Date.le d e → d ∈ dateRangeAux fuel c e := by
  intro fuel
  induction fuel with
  | zero =>
    intro c hc hfuel hcd hde
    exfalso
    have h1 : c.rank ≤ e.rank := rank_le_of_le hc he (Date.le_trans hcd hde)
    omega
  | succ fuel ih =>
    intro c hc hfuel hcd hde
    have hce : Date.le c e := Date.le_trans hcd hde
    unfold dateRangeAux
    rw [if_pos hce]
    by_cases hcd' : c = d
    · subst hcd'
      exact List.mem_cons_self _ _
    · have hlt : Date.lt c d := Date.lt_of_le_of_ne hcd hcd'
      have hrank := rank_lt_next hc
      refine List.mem_cons_of_mem _ (ih (Date.next c) (valid_next hc) ?_
        (next_le_of_lt hc hd hlt) hde)
      omega

theorem dateRangeAux_sub {e : Date} :
    ∀ (fuel : Nat) (c : Date), c.Valid →
      ∀ d ∈ dateRangeAux fuel c e, Date.le c d ∧ Date.le d e ∧ d.Valid := by
  intro fuel
  induction fuel with
  | zero => intro c hc d hd; simp [dateRangeAux] at hd
  | succ fuel ih =>
    intro c hc d hd
    unfold dateRangeAux at hd
    by_cases hce : Date.le c e
    · rw [if_pos hce] at hd
      rcases List.mem_cons.mp hd with rfl | hd
      · exact ⟨Date.le_refl d, hce, hc⟩
      · obtain ⟨h1, h2, h3⟩ := ih (Date.next c) (valid_next hc) d hd
        exact ⟨Date.le_trans (Date.le_of_lt (lt_next hc)) h1, h2, h3⟩
    · rw [if_neg hce] at hd
      simp at hd

theorem dateRangeAux_pairwise {e : Date} :
    ∀ (fuel : Nat) (c : Date), c.Valid → List.Pairwise Date.lt (dateRangeAux fuel c e) := by
  intro fuel
  induction fuel with
  | zero => intro c hc; simp [dateRangeAux]
  | succ fuel ih =>
    intro c hc
    unfold dateRangeAux
    by_cases hce : Date.le c e
    · rw [if_pos hce]
      refine List.pairwise_cons.mpr ⟨?_, ih (Date.next c) (valid_next hc)⟩
      intro d hd
      obtain ⟨h1, _, _⟩ := dateRangeAux_sub fuel (Date.next c) (valid_next hc) d hd
      exact Date.lt_of_lt_of_le (lt_next hc) h1
    · rw [if_neg hce]
      simp

theorem handleBulkSave_dates (entries : List DailyEntry) (ov : BulkOverrides) (s e : Date)
    (tz : Int) (htz : tz ≤ 0) :
    (handleBulkSave entries ov s e tz).map (fun w => w.date) = dateRange s e := by
  unfold handleBulkSave
  rw [List.map_map]
  have h : ((fun w : DailyEntry => w.date)
      ∘ fun d => bulkEntryFor entries ov (toISODate tz d)) = fun d => d := by
    funext d
    show toISODate tz d = d
    unfold toISODate
    rw [if_neg (not_lt.mpr htz)]
  rw [h]
  simp

/-- C6 counterexample: in an environment east of UTC (offset +120 minutes,
    UTC+2), the bulk commit over the single day 2024-05-01 skips that date of
    the range: toISOString of local midnight falls on the previous UTC day,
    so the one write is dated 2024-04-30. -/
theorem bulk_commit_range_cex :
    (⟨2024, 5, 1⟩ : Date).Valid
    ∧ Date.le ⟨2024, 5, 1⟩ ⟨2024, 5, 1⟩
    ∧ (⟨2024, 5, 1⟩ : Date) ∉ (handleBulkSave [] noOverrides
        ⟨2024, 5, 1⟩ ⟨2024, 5, 1⟩ 120).map (fun w => w.date)
    ∧ (handleBulkSave [] noOverrides ⟨2024, 5, 1⟩ ⟨2024, 5, 1⟩ 120).map (fun w => w.date)
        = [⟨2024, 4, 30⟩] := by
  refine ⟨by decide, by decide, by decide, by decide⟩

/-- C6 (amended).  In environments whose UTC offset is not positive (UTC
    itself or west of it, such as the Brazilian locale the interface
    targets), a bulk commit writes exactly one entry per calendar date of
    the inclusive range (no date skipped, no date repeated, dates with no
    prior entry included), and every written entry takes, for each of the
    eleven counters, the override value when one was specified (an explicit
    0 included), else the existing committed entry's value for its date,
    else 0, while discardReason is carried over unchanged from the existing
    entry (empty for a new date).  East of UTC the written dates are all
    shifted one calendar day earlier and the range is not covered. -/
theorem bulk_commit_range (entries : List DailyEntry) (ov : BulkOverrides) (s e : Date)
    (tz : Int) (hs : s.Valid) (he : e.Valid) (htz : tz ≤ 0) :
    ((handleBulkSave entries ov s e tz).map (fun w => w.date)).Nodup
    ∧ (∀ d : Date, d.Valid →
        (d ∈ (handleBulkSave entries ov s e tz).map (fun w => w.date)
          ↔ (Date.le s d ∧ Date.le d e)))
    ∧ ∀ w ∈ handleBulkSave entries ov s e tz,
        w.newLeads = (match ov.newLeads with
          | some v => v
          | none => (match findEntry entries w.date with
            | some ex => ex.newLeads
            | none => 0))
        ∧ w.discardedLeads = (match ov.discardedLeads with
          | some v => v
          | none => (match findEntry entries w.date with
            | some ex => ex.discardedLeads
            | none => 0))
        ∧ w.repiqueLeads = some (match ov.repiqueLeads with
          | some v => v
          | none => (match findEntry entries w.date with
            | some ex => ex.repiqueLeads.getD 0
            | none => 0))
        ∧ w.localVisits = (match ov.localVisits with
          | some v => v
          | none => (match findEntry entries w.date with
            | some ex => ex.localVisits
            | none => 0))
        ∧ w.contactingLeads = (match ov.contactingLeads with
          | some v => v
          | none => (match findEntry entries w.date with
            | some ex => ex.contactingLeads
            | none => 0))
        ∧ w.inProgressLeads = (match ov.inProgressLeads with
          | some v => v
          | none => (match findEntry entries w.date with
            | some ex => ex.inProgressLeads
            | none => 0))
        ∧ w.scheduledLeads = (match ov.scheduledLeads with
          | some v => v
          | none => (match findEntry entries w.date with
            | some ex => ex.scheduledLeads
            | none => 0))
        ∧ w.negotiationLeads = (match ov.negotiationLeads with
          | some v => v
          | none => (match findEntry entries w.date with
            | some ex => ex.negotiationLeads
            | none => 0))
        ∧ w.creditAnalysisLeads = (match ov.creditAnalysisLeads with
          | some v => v
          | none => (match findEntry entries w.date with
            | some ex => ex.creditAnalysisLeads
            | none => 0))
        ∧ w.approvedLeads = (match ov.approvedLeads with
          | some v => v
          | none => (match findEntry entries w.date with
            | some ex => ex.approvedLeads
            | none => 0))
        ∧ w.signedLeads = (match ov.signedLeads with
          | some v => v
          | none => (match findEntry entries w.date with
            | some ex => ex.signedLeads
            | none => 0))
        ∧ w.discardReason = (match findEntry entries w.date with
          | some ex => ex.discardReason
          | none => "") := by
  refine ⟨?_, ?_, ?_⟩
  · rw [handleBulkSave_dates entries ov s e tz htz]
    unfold dateRange
    exact (dateRangeAux_pairwise _ s hs).imp Date.ne_of_lt
  · intro d hd
    rw [handleBulkSave_dates entries ov s e tz htz]
    unfold dateRange
    constructor
    · intro hmem
      obtain ⟨h1, h2, _⟩ := dateRangeAux_sub _ s hs d hmem
      exact ⟨h1, h2⟩
    · rintro ⟨h1, h2⟩
      exact mem_dateRangeAux he hd _ s hs (Nat.le_refl _) h1 h2
  · intro w hw
    unfold handleBulkSave at hw
    rcases List.mem_map.mp hw with ⟨d, hd, rfl⟩
    exact ⟨rfl, rfl, rfl, rfl, rfl, rfl, rfl, rfl, rfl, rfl, rfl, rfl⟩

/-- C6 witness: in a UTC-3 environment, a three-day bulk commit over
    2024-05-01..2024-05-03 with one pre-existing entry writes distinct dates
    and covers 2024-05-02, a date with no prior entry. -/
theorem bulk_commit_range_witness :
    ((handleBulkSave [reasonEntry] noOverrides ⟨2024, 5, 1⟩ ⟨2024, 5, 3⟩ (-180)).map
        (fun w => w.date)).Nodup
    ∧ ((⟨2024, 5, 2⟩ : Date) ∈ (handleBulkSave [reasonEntry] noOverrides
          ⟨2024, 5, 1⟩ ⟨2024, 5, 3⟩ (-180)).map (fun w => w.date)
        ↔ (Date.le ⟨2024, 5, 1⟩ ⟨2024, 5, 2⟩ ∧ Date.le ⟨2024, 5, 2⟩ ⟨2024, 5, 3⟩)) :=
  ⟨(bulk_commit_range [reasonEntry] noOverrides ⟨2024, 5, 1⟩ ⟨2024, 5, 3⟩ (-180)
      (by decide) (by decide) (by decide)).1,
   (bulk_commit_range [reasonEntry] noOverrides ⟨2024, 5, 1⟩ ⟨2024, 5, 3⟩ (-180)
      (by decide) (by decide) (by decide)).2.1 ⟨2024, 5, 2⟩ (by decide)⟩

end WRRobert
